import Mathlib

/-!
# Verification of the sam-dm deployment manager

A shallow embedding of the core of the `sam-dm` repository (a Rust
deployment-manager server `dm-server` and agent `dm-client`) together with
proofs about the agent's update transaction and the server's polling,
result-report and version-upload endpoints.

Server-side state (Postgres tables) is modelled as lists of rows; each HTTP
handler becomes a pure function from a database state (plus the request and a
few ambient values such as the clock and freshly generated ids) to the new
database state and a response.  Agent-side filesystem state is modelled as an
association list from relative file path to file contents, and every external
effect of the update transaction (download, subprocess exit status, I/O
success) is an explicit field of an environment record, so that
`perform_update` is a total function mirroring the control flow of
`dm-client/src/polling.rs`.
-/

set_option autoImplicit false

namespace SamDm

/-! ## Server data model (`dm-server/src/db/models.rs`) -/

/-- Per-client configuration, `ClientConfig` in `db/models.rs`: seven optional
fields, missing means "use agent defaults". -/
structure ClientConfig where
  service_dir : Option String := none
  restart_command : Option String := none
  pre_update_script : Option String := none
  post_update_script : Option String := none
  health_check_url : Option String := none
  health_check_timeout : Option Int := none
  rollback_on_failure : Option Bool := none
deriving DecidableEq, Repr

/-- A registered client row, `Client` in `db/models.rs`.  Ids are modelled as
naturals (UUIDs in the source), timestamps as naturals. -/
structure Client where
  id : Nat
  name : String
  api_key : String
  current_version : Option String := none
  target_version : Option String := none
  last_seen : Option Nat := none
  status : String := "offline"
  created_at : Nat := 0
  updated_at : Nat := 0
  config : ClientConfig := {}
deriving DecidableEq, Repr

/-- A stored version row, `Version` in `db/models.rs`. -/
structure Version where
  id : Nat := 0
  version : String
  artifact_path : String
  artifact_size : Int
  checksum : String
  release_notes : Option String := none
  is_active : Bool := true
  created_at : Nat := 0
deriving DecidableEq, Repr

/-- An update-log row, `UpdateLog` in `db/models.rs`. -/
structure UpdateLog where
  id : Nat
  client_id : Nat
  from_version : Option String
  to_version : String
  status : String
  error_message : Option String := none
  started_at : Nat := 0
  completed_at : Option Nat := none
deriving DecidableEq, Repr

/-- The whole database state: the three tables owned by the server. -/
structure Db where
  clients : List Client := []
  versions : List Version := []
  update_logs : List UpdateLog := []
deriving DecidableEq, Repr

/-! ## Server db queries (`dm-server/src/db/mod.rs`) -/

/-- `get_client_by_api_key`: `SELECT * FROM clients WHERE api_key = $1`
(first match). -/
def get_client_by_api_key (db : Db) (key : String) : Option Client :=
  db.clients.find? (fun c => c.api_key = key)

/-- `get_version`: `SELECT * FROM versions WHERE version = $1` (first match). -/
def get_version (db : Db) (v : String) : Option Version :=
  db.versions.find? (fun r => r.version = v)

/-- `update_client_checkin`: single UPDATE setting
`current_version = COALESCE($2, current_version)`, `status`, `last_seen` and
`updated_at` on the row with the given id. -/
def update_client_checkin (db : Db) (clientId : Nat)
    (currentVersion : Option String) (status : String) (now : Nat) : Db :=
  { db with clients := db.clients.map (fun c =>
      if c.id = clientId then
        { c with
          current_version := match currentVersion with
            | some v => some v
            | none => c.current_version,
          status := status,
          last_seen := some now,
          updated_at := now }
      else c) }

/-- `create_update_log`: INSERT a fresh row with status `pending`, no error
message and no `completed_at`. -/
def create_update_log (db : Db) (logId clientId : Nat)
    (fromVersion : Option String) (toVersion : String) (now : Nat) : Db :=
  { db with update_logs := db.update_logs ++
      [{ id := logId, client_id := clientId, from_version := fromVersion,
         to_version := toVersion, status := "pending", error_message := none,
         started_at := now, completed_at := none }] }

/-! ## Agent-facing endpoints (`dm-server/src/api/polling.rs`) -/

/-- Body of `POST /api/checkin`. -/
structure CheckinRequest where
  current_version : Option String
  status : String
deriving DecidableEq, Repr

/-- Response of `POST /api/checkin`. -/
structure CheckinResponse where
  action : String
  target_version : Option String := none
  artifact_url : Option String := none
  checksum : Option String := none
  config : Option ClientConfig := none
deriving DecidableEq, Repr

/-- Body of `POST /api/update-result`. -/
structure UpdateResultRequest where
  version : String
  success : Bool
  error_message : Option String := none
deriving DecidableEq, Repr

/-- An HTTP error: status code and message. -/
abbrev HttpErr := Nat × String

/-- The `checkin` handler (`api/polling.rs`, lines 21-97).  `now` is the
database clock, `logId` the id generated for a possible new update log, and
`apiKey` the value of the `X-API-Key` header (absent = `none`).
Returns the new database state together with the response. -/
def checkin (db : Db) (now logId : Nat) (apiKey : Option String)
    (req : CheckinRequest) : Db × Except HttpErr CheckinResponse :=
  match apiKey with
  | none => (db, .error (401, "X-API-Key header required"))
  | some key =>
    match get_client_by_api_key db key with
    | none => (db, .error (401, "Invalid API key"))
    | some client =>
      let db1 := update_client_checkin db client.id req.current_version req.status now
      let needs_update : Bool :=
        match client.target_version, req.current_version with
        | some target, some current => target != current
        | some _, none => true
        | _, _ => false
      let cc := client.config
      let config_option :=
        if cc.service_dir.isSome || cc.restart_command.isSome then some cc else none
      if needs_update then
        let target := client.target_version.getD ""
        match get_version db target with
        | some ver =>
          let db2 := create_update_log db1 logId client.id req.current_version target now
          (db2, .ok { action := "update", target_version := some target,
                      artifact_url := some ("/api/artifacts/" ++ ver.version),
                      checksum := some ver.checksum, config := config_option })
        | none =>
          (db1, .ok { action := "none", config := config_option })
      else
        (db1, .ok { action := "none", config := config_option })

/-- Response body of `POST /api/update-result` (the `serde_json::json!`
object). -/
structure ReportResponse where
  message : String
  version : String
  error : Option String := none
deriving DecidableEq, Repr

/-- The `report_update_result` handler (`api/polling.rs`, lines 102-156).
On success a single UPDATE sets `current_version = $2`,
`target_version = NULL`, `status = 'online'`; on failure a single UPDATE sets
`status = 'error'`.  The `update_logs` table is not touched. -/
def report_update_result (db : Db) (now : Nat) (apiKey : Option String)
    (req : UpdateResultRequest) : Db × Except HttpErr ReportResponse :=
  match apiKey with
  | none => (db, .error (401, "X-API-Key header required"))
  | some key =>
    match get_client_by_api_key db key with
    | none => (db, .error (401, "Invalid API key"))
    | some client =>
      if req.success then
        let db1 : Db := { db with clients := db.clients.map (fun c =>
          if c.id = client.id then
            { c with current_version := some req.version,
                     target_version := none,
                     status := "online",
                     updated_at := now }
          else c) }
        (db1, .ok { message := "Update success recorded", version := req.version })
      else
        let db1 : Db := { db with clients := db.clients.map (fun c =>
          if c.id = client.id then
            { c with status := "error", updated_at := now }
          else c) }
        (db1, .ok { message := "Update failure recorded", version := req.version,
                    error := req.error_message })

/-! ## Artifact store and version upload (`dm-server/src/api/versions.rs`,
`dm-server/src/api/artifacts.rs`) -/

/-- The artifact directory on disk: file name to file bytes (bytes modelled as
a `String`). -/
abbrev ArtifactStore := List (String × String)

/-- First-match association lookup (used for directories / stores). -/
def assocGet {α : Type} : List (String × α) → String → Option α
  | [], _ => none
  | (k, v) :: rest, key => if k = key then some v else assocGet rest key

/-- `fs::write` semantics on an association directory: replace the contents of
the file if it exists (first occurrence), otherwise append it. -/
def assocWrite {α : Type} : List (String × α) → String → α → List (String × α)
  | [], key, v => [(key, v)]
  | p :: rest, key, v =>
    if p.1 = key then (key, v) :: rest else p :: assocWrite rest key v

/-- The parsed multipart form of `POST /api/versions`: the final value of each
field after the parse loop in `upload_version`. -/
structure UploadForm where
  version : Option String
  artifact : Option String
  file_name : Option String := none
  release_notes : Option String := none
deriving DecidableEq, Repr

/-- `file_name.rsplit('.').next()`: the substring after the last dot (the
whole name when there is no dot). -/
def extension_of (name : String) : String :=
  ((name.splitOn ".").reverse.head?).getD name

/-- The `upload_version` handler (`api/versions.rs`, lines 43-152).
`semverOk` is the `semver::Version::parse` oracle and `sha256` the SHA-256
oracle; `newId`/`now` are the generated row id and clock.  Returns the new
database and artifact store plus the response. -/
def upload_version (semverOk : String → Bool) (sha256 : String → String)
    (db : Db) (store : ArtifactStore) (newId now : Nat) (form : UploadForm) :
    (Db × ArtifactStore) × Except HttpErr Version :=
  match form.version with
  | none => ((db, store), .error (400, "version field required"))
  | some v =>
    match form.artifact with
    | none => ((db, store), .error (400, "artifact file required"))
    | some data =>
      if semverOk v then
        if (get_version db v).isSome then
          ((db, store), .error (409, "Version " ++ v ++ " already exists"))
        else
          let checksum := sha256 data
          let ext := (form.file_name.map extension_of).getD "tar.gz"
          let fname := v ++ "." ++ ext
          let store1 := assocWrite store fname data
          let row : Version :=
            { id := newId, version := v, artifact_path := fname,
              artifact_size := (data.length : Int), checksum := checksum,
              release_notes := form.release_notes, is_active := true,
              created_at := now }
          ((({ db with versions := db.versions ++ [row] } : Db), store1), .ok row)
      else
        ((db, store), .error (400, "Invalid semver"))

/-- What `GET /api/artifacts/:version` serves: body bytes, the
`Content-Disposition` filename, the `Content-Length` value and the
`X-Checksum-SHA256` header. -/
structure ArtifactReply where
  body : String
  filename : String
  content_length : Int
  checksum_header : String
deriving DecidableEq, Repr

/-- The `download_artifact` handler (`api/artifacts.rs`, lines 15-50). -/
def download_artifact (db : Db) (store : ArtifactStore) (version : String) :
    Except HttpErr ArtifactReply :=
  match get_version db version with
  | none => .error (404, "Version not found")
  | some ver =>
    match assocGet store ver.artifact_path with
    | none => .error (404, "Artifact file not found")
    | some bytes =>
      .ok { body := bytes, filename := ver.artifact_path,
            content_length := ver.artifact_size, checksum_header := ver.checksum }

/-! ## Agent filesystem model (`dm-client/src/polling.rs`,
`dm-client/src/updater.rs`)

The service directory is an association list from relative file path to file
contents; the `.dm-version` marker is an ordinary file inside it.  The backup
directory is a list of named snapshots.  `copy_dir_recursive` into a freshly
created empty directory reproduces the source contents exactly, so a backup
snapshot is the directory list itself and a restore replaces the service
directory with the snapshot. -/

/-- Contents of a directory: relative file path to file bytes. -/
abbrev FsDir := List (String × String)

/-- The agent's on-disk state: `service_dir` (`none` = the directory does not
exist) and the backup directory. -/
structure AgentState where
  service : Option FsDir
  backups : List (String × FsDir) := []
deriving DecidableEq, Repr

/-- `VERSION_FILE` in `polling.rs`. -/
def VERSION_FILE : String := ".dm-version"

/-- Agent configuration (the fields of `dm-client/src/config.rs` the
transaction consults beyond the directory paths). -/
structure AgentConfig where
  restart_command : String := "pm2 restart all"
  health_check_command : Option String := none

/-- Outcome of the extract-and-install stage: `unpackErr` = `archive.unpack`
failed (temp dir removed, `service_dir` untouched); `installErr torn` =
failure after `service_dir` was cleared (remove/create/copy I/O error),
leaving it in a torn state; `extracted content` = success, `service_dir`
replaced by the extracted tree. -/
inductive ExtractOutcome
  | unpackErr
  | installErr (torn : Option FsDir)
  | extracted (content : FsDir)
deriving DecidableEq, Repr

/-- Environment of one transaction run: every external effect outcome, fixed
in advance.  `sha256` is the hash oracle; the `rollback*` fields are the
outcomes of the operations performed inside `Updater::rollback` and of the
`.dm-version` rewrite that follows a successful rollback. -/
structure TxEnv where
  downloadResult : Option String
  sha256 : String → String
  timestamp : String := "ts"
  backupOk : Bool := true
  backupTorn : FsDir := []
  extract : ExtractOutcome
  writeTargetOk : Bool := true
  writeTargetTorn : Option String := none
  restartOk : Bool := true
  healthCmdOk : Bool := true
  rollbackCopyOk : Bool := true
  rollbackTorn : Option FsDir := none
  rollbackRestartOk : Bool := true
  rollbackRewriteOk : Bool := true
  rollbackRewriteTorn : Option String := none

/-- Errors a transaction run can end with (the `anyhow` errors of
`perform_update` and the functions it calls). -/
inductive UpdateError
  | downloadFailed
  | checksumFailed
  | backupFailed
  | extractFailed
  | installFailed
  | writeVersionFailed
  | restartFailed
  | healthFailed
  | rollbackNoBackup
  | rollbackMissingBackup
  | rollbackCopyFailed
deriving DecidableEq, Repr

/-- Whitespace as trimmed by `str::trim` (restricted to the ASCII whitespace
characters, which suffices for version strings). -/
def isWsChar (c : Char) : Bool :=
  c = ' ' || c = '\t' || c = '\n' || c = '\r'

/-- `str::trim`: drop leading and trailing whitespace. -/
def trimStr (s : String) : String :=
  ⟨((s.data.dropWhile isWsChar).reverse.dropWhile isWsChar).reverse⟩

/-- `PollingDaemon::read_current_version`: read `service_dir/.dm-version`
(`None` when the directory or the file is missing) and trim it. -/
def read_current_version (st : AgentState) : Option String :=
  (match st.service with
   | none => (none : Option String)
   | some d => assocGet d VERSION_FILE).map trimStr

/-- `PollingDaemon::write_current_version`: `create_dir_all(service_dir)` then
`fs::write(service_dir/.dm-version, version)`. -/
def write_current_version (version : String) (st : AgentState) : AgentState :=
  { st with service := some (assocWrite (st.service.getD []) VERSION_FILE version) }

/-- A `fs::write` of the version file that may fail: on failure the file is
left untouched (`torn = none`) or holds torn bytes (`torn = some c`), and the
error propagates. -/
def write_version_attempt (ok : Bool) (torn : Option String) (version : String)
    (st : AgentState) : AgentState × Option UpdateError :=
  if ok then (write_current_version version st, none)
  else
    match torn with
    | some c => (write_current_version c st, some .writeVersionFailed)
    | none => (st, some .writeVersionFailed)

/-- `Updater::verify_checksum`: SHA-256 hex of the data equals the expected
string. -/
def verify_checksum (env : TxEnv) (data expected : String) : Bool :=
  env.sha256 data == expected

/-- `Updater::backup_current` (`updater.rs`, lines 31-52): when `service_dir`
does not exist, warn and return the empty backup marker `""`; otherwise copy
it to `backup_dir/backup_<version>_<timestamp>` and return that path.  An I/O
failure during the copy leaves a torn snapshot behind and errors. -/
def backup_current (env : TxEnv) (version : String) (st : AgentState) :
    AgentState × Except UpdateError String :=
  match st.service with
  | none => (st, .ok "")
  | some d =>
    let name := "backup_" ++ version ++ "_" ++ env.timestamp
    if env.backupOk then
      ({ st with backups := (name, d) :: st.backups }, .ok name)
    else
      ({ st with backups := (name, env.backupTorn) :: st.backups }, .error .backupFailed)

/-- `Updater::extract_and_install` (`updater.rs`, lines 55-83) at the level of
stage outcomes: unpack to a temp dir (failure leaves `service_dir`
untouched), then clear `service_dir` and copy the extracted tree in (failure
leaves it torn; success replaces it). -/
def extract_and_install (env : TxEnv) (st : AgentState) :
    AgentState × Option UpdateError :=
  match env.extract with
  | .unpackErr => (st, some .extractFailed)
  | .installErr torn => ({ st with service := torn }, some .installFailed)
  | .extracted content => ({ st with service := some content }, none)

/-- `Updater::rollback` (`updater.rs`, lines 134-162): bail when the backup
marker is empty or the snapshot is missing; otherwise clear `service_dir`,
copy the snapshot back (restoring it byte for byte) and re-run the restart
command, whose failure propagates after the copy. -/
def rollback (env : TxEnv) (backupPath : String) (st : AgentState) :
    AgentState × Option UpdateError :=
  if backupPath = "" then (st, some .rollbackNoBackup)
  else
    match assocGet st.backups backupPath with
    | none => (st, some .rollbackMissingBackup)
    | some b =>
      if env.rollbackCopyOk then
        let st1 : AgentState := { st with service := some b }
        if env.rollbackRestartOk then (st1, none)
        else (st1, some .restartFailed)
      else
        ({ st with service := env.rollbackTorn }, some .rollbackCopyFailed)

/-- `Updater::health_check` (`updater.rs`, lines 109-131): with no configured
command the service is assumed healthy; otherwise the check passes exactly
when the command exits 0 (`Ok(false)` and `Err` both count as failure in the
caller). -/
def health_check (cfg : AgentConfig) (env : TxEnv) : Bool :=
  match cfg.health_check_command with
  | none => true
  | some _ => env.healthCmdOk

/-- `PollingDaemon::perform_update` (`polling.rs`, lines 42-107): download,
verify, backup, extract/install (rollback on failure), write `.dm-version`,
restart (rollback + version rewrite on failure), health check (rollback +
version rewrite on failure).  Returns the final on-disk state and the error
the transaction ends with, if any. -/
def perform_update (cfg : AgentConfig) (env : TxEnv)
    (targetVersion expectedChecksum : String) (st : AgentState) :
    AgentState × Option UpdateError :=
  let currentVersion := (read_current_version st).getD "unknown"
  match env.downloadResult with
  | none => (st, some .downloadFailed)
  | some data =>
    if verify_checksum env data expectedChecksum then
      match backup_current env currentVersion st with
      | (st1, .error e) => (st1, some e)
      | (st1, .ok backupPath) =>
        match extract_and_install env st1 with
        | (st2, some e) =>
          if backupPath ≠ "" then
            match rollback env backupPath st2 with
            | (st3, some re) => (st3, some re)
            | (st3, none) => (st3, some e)
          else (st2, some e)
        | (st2, none) =>
          match write_version_attempt env.writeTargetOk env.writeTargetTorn
              targetVersion st2 with
          | (st3, some e) => (st3, some e)
          | (st3, none) =>
            if env.restartOk then
              if health_check cfg env then (st3, none)
              else
                if backupPath ≠ "" then
                  match rollback env backupPath st3 with
                  | (st4, some re) => (st4, some re)
                  | (st4, none) =>
                    match write_version_attempt env.rollbackRewriteOk
                        env.rollbackRewriteTorn currentVersion st4 with
                    | (st5, some e) => (st5, some e)
                    | (st5, none) => (st5, some .healthFailed)
                else (st3, some .healthFailed)
            else
              if backupPath ≠ "" then
                match rollback env backupPath st3 with
                | (st4, some re) => (st4, some re)
                | (st4, none) =>
                  match write_version_attempt env.rollbackRewriteOk
                      env.rollbackRewriteTorn currentVersion st4 with
                  | (st5, some e) => (st5, some e)
                  | (st5, none) => (st5, some .restartFailed)
              else (st3, some .restartFailed)
    else (st, some .checksumFailed)

/-- The report the polling loop sends after a transaction (`polling.rs`,
lines 134-148): `report_result(target, true, None)` on success,
`report_result(target, false, Some(msg))` on failure.  Modelled as the
`(version, success)` pair. -/
def poll_report (target : String) (outcome : Option UpdateError) : String × Bool :=
  (target, outcome.isNone)

/-! ## Archive extraction at the entry level

`Updater::extract_and_install` performs no path filtering of its own; it
calls `tar::Archive::unpack`, a dependency outside `src/`.  The following
definitions model the `tar` crate's documented `Entry::unpack_in` behaviour
(tar-rs 0.4): path components are walked in order; prefix, root and
current-dir components are dropped; a parent-dir (`..`) component causes the
whole entry to be silently skipped (`Ok(false)`), not an error; normal
components are pushed under the destination. -/

/-- One archive entry: its stored path (`/`-separated, possibly absolute or
containing `..`) and its file contents. -/
structure TarEntry where
  path : String
  contents : String
deriving DecidableEq, Repr

/-- Split a character list at a separator (like `str::split`): `"/abs/x"`
becomes `["", "abs", "x"]`. -/
def splitSegs (sep : Char) (cs : List Char) : List (List Char) :=
  cs.foldr (fun c acc =>
    match acc with
    | [] => [[]]
    | seg :: rest => if c = sep then [] :: (seg :: rest) else (c :: seg) :: rest) [[]]

/-- A path string as its `/`-separated segments. -/
def pathSegs (p : String) : List String :=
  (splitSegs (Char.ofNat 47) p.data).map (fun cs => ⟨cs⟩)

/-- The destination path `unpack_in` computes for an entry: `none` when the
entry is skipped because a component is `..`; otherwise the list of normal
components (empty segments — root and doubled separators — and `.` are
dropped). -/
def sanitize_entry_path (p : String) : Option (List String) :=
  let segs := (pathSegs p).filter (fun s => s != "" && s != ".")
  if segs.contains ".." then none else some segs

/-- `Archive::unpack` into a fresh temp dir: the files that actually get
written, as (relative component list, contents). -/
def tar_unpack (entries : List TarEntry) : List (List String × String) :=
  entries.filterMap (fun e => (sanitize_entry_path e.path).map (fun segs => (segs, e.contents)))

/-- Distinct strings, keeping first occurrences. -/
def dedupStr (seen : List String) : List String → List String
  | [] => []
  | s :: rest =>
    if seen.contains s then dedupStr seen rest else s :: dedupStr (s :: seen) rest

/-- The distinct top-level names of the extracted tree (the `read_dir`
entries of the temp dir). -/
def top_level_names (files : List (List String × String)) : List String :=
  dedupStr [] (files.filterMap (fun f => f.1.head?))

/-- `find_extracted_root` (`updater.rs`, lines 186-198): if the temp dir holds
exactly one entry and it is a directory, descend into it; otherwise use the
temp dir itself. -/
def find_extracted_root (files : List (List String × String)) :
    List (List String × String) :=
  match top_level_names files with
  | [d] =>
    if files.any (fun f => f.1 == [d]) then files
    else files.map (fun f => (f.1.drop 1, f.2))
  | _ => files

/-- `Updater::extract_and_install` refined to archive entries, success path of
the surrounding I/O: unpack (skipping unsafe entries per `unpack_in`), locate
the root, clear `service_dir` and install the extracted tree. -/
def extract_and_install_archive (entries : List TarEntry) (st : AgentState) :
    AgentState × Option UpdateError :=
  let files := find_extracted_root (tar_unpack entries)
  let content : FsDir := files.map (fun f => (String.intercalate "/" f.1, f.2))
  ({ st with service := some content }, none)

/-- Byte-for-byte extensional equality of directory contents: every path
holds the same bytes (or is absent) on both sides. -/
def sameFiles (a b : FsDir) : Prop :=
  ∀ k, assocGet a k = assocGet b k

/-- Byte-for-byte equality of an optional directory: both absent, or both
present with the same file contents. -/
def sameDir : Option FsDir → Option FsDir → Prop
  | none, none => True
  | some a, some b => sameFiles a b
  | _, _ => False

/-! ## Concrete instances used in witnesses and counterexamples -/

/-- A client mid-update: current `1.0.0`, target `2.0.0`. -/
def client3w : Client where
  id := 0
  name := "c"
  api_key := "k"
  current_version := some "1.0.0"
  target_version := some "2.0.0"
  status := "updating"

def db3w : Db where
  clients := [client3w]

/-- A client with no target version. -/
def client9w : Client where
  id := 0
  name := "c"
  api_key := "k"
  current_version := some "1.0.0"
  status := "online"

def db9w : Db where
  clients := [client9w]

def row7w : Version where
  version := "1.0.0"
  artifact_path := "1.0.0.tar.gz"
  artifact_size := 3
  checksum := "AA"

def db7w : Db where
  versions := [row7w]

def client2w : Client where
  id := 0
  name := "c"
  api_key := "k"
  target_version := some "2.0.0"

def ver2w : Version where
  version := "2.0.0"
  artifact_path := "2.0.0.tar.gz"
  artifact_size := 10
  checksum := "CK"

def db2w : Db where
  clients := [client2w]
  versions := [ver2w]

def req2w : CheckinRequest where
  current_version := some "1.0.0"
  status := "online"

/-- A client whose only non-default config field is `health_check_url`. -/
def client8w : Client where
  id := 0
  name := "c"
  api_key := "k"
  config := { health_check_url := some "http://x" }

def db8w : Db where
  clients := [client8w]

def log4w : UpdateLog where
  id := 7
  client_id := 0
  from_version := some "1.0.0"
  to_version := "2.0.0"
  status := "pending"

def db4w : Db where
  clients := [{ id := 0, name := "c", api_key := "k", target_version := some "2.0.0" }]
  update_logs := [log4w]

/-- Environment for a transaction whose restart stage fails while every
rollback operation succeeds: download yields bytes `"D"` hashing to `"H"`,
extraction yields a tree `[("app", "y")]`. -/
def env1w : TxEnv where
  downloadResult := some "D"
  sha256 := fun _ => "H"
  extract := .extracted [("app", "y")]
  restartOk := false

/-- Pre-transaction service dir with one file and no `.dm-version`. -/
def st1w : AgentState where
  service := some [("app", "x")]

/-- Pre-transaction service dir whose `.dm-version` holds `1.0.0` with a
trailing newline. -/
def d1v : FsDir := [("app", "x"), (".dm-version", "1.0.0\n")]

/-- Environment whose downloaded bytes hash to `"X"`, not the expected
checksum. -/
def env6w : TxEnv where
  downloadResult := some "D"
  sha256 := fun _ => "X"
  extract := .extracted []

/-- An archive holding a traversal entry `../evil` and a normal entry. -/
def entries5w : List TarEntry := [⟨"../evil", "E"⟩, ⟨"app/bin", "B"⟩]

def st5w : AgentState where
  service := some [("old", "O")]

/-! ## Helper lemmas -/

instance exceptDecEq {e a : Type} [DecidableEq e] [DecidableEq a] :
    DecidableEq (Except e a) := fun x y =>
  match x, y with
  | .ok u, .ok v =>
    if h : u = v then isTrue (by rw [h])
    else isFalse (fun hh => h (Except.ok.inj hh))
  | .error u, .error v =>
    if h : u = v then isTrue (by rw [h])
    else isFalse (fun hh => h (Except.error.inj hh))
  | .ok _, .error _ => isFalse (fun hh => Except.noConfusion hh)
  | .error _, .ok _ => isFalse (fun hh => Except.noConfusion hh)

theorem get_client_by_api_key_matches {db : Db} {key : String} {c : Client}
    (h : get_client_by_api_key db key = some c) : c.api_key = key := by
  have := List.find?_some h
  exact of_decide_eq_true this

theorem get_version_matches {db : Db} {v : String} {ver : Version}
    (h : get_version db v = some ver) : ver.version = v := by
  have := List.find?_some h
  exact of_decide_eq_true this

/-- `checkin` never changes the versions table. -/
theorem checkin_versions_eq (db : Db) (now logId : Nat) (apiKey : Option String)
    (req : CheckinRequest) : (checkin db now logId apiKey req).1.versions = db.versions := by
  cases apiKey with
  | none => rfl
  | some key =>
    cases hc : get_client_by_api_key db key with
    | none => simp [checkin, hc]
    | some client =>
      simp only [checkin, hc]
      split
      · cases hv : get_version db (client.target_version.getD "") with
        | none => simp [hv, update_client_checkin]
        | some ver => simp [hv, update_client_checkin, create_update_log]
      · simp [update_client_checkin]

/-! ## Claims C3, C4, C9: the result-report endpoint -/

/-- Claim C3: for every authenticated update-result report with `success=true`
and version `V`, the server atomically — as the effect of one single UPDATE
statement on the clients table — sets the client's `current_version` to `V`,
clears `target_version` to `NULL` and sets `status` to `online`; no other
table is touched and the request succeeds. -/
theorem C3_mark_success_atomic (db : Db) (now : Nat) (key : String)
    (client : Client) (req : UpdateResultRequest)
    (hc : get_client_by_api_key db key = some client)
    (hs : req.success = true) :
    report_update_result db now (some key) req =
      ({ db with clients := db.clients.map (fun c =>
          if c.id = client.id then
            { c with current_version := some req.version, target_version := none,
                     status := "online", updated_at := now }
          else c) },
       .ok { message := "Update success recorded", version := req.version }) := by
  simp only [report_update_result, hc, hs, if_true]

/-- Claim C4 (counterexample): a client with a `pending` UpdateLog row for
`(client, to_version = "2.0.0")` reports `success=true` for `2.0.0`; the
claim says that row is finalized to `completed` with a `completed_at`
timestamp, but after `report_update_result` the row is unchanged — still
`pending`, with no `completed_at`. -/
theorem C4_update_log_not_finalized :
    (report_update_result db4w 9 (some "k")
        { version := "2.0.0", success := true }).1.update_logs = [log4w] ∧
    log4w.to_version = "2.0.0" ∧
    ∀ log ∈ (report_update_result db4w 9 (some "k")
        { version := "2.0.0", success := true }).1.update_logs,
      log.status = "pending" ∧ log.completed_at = none := by
  exact ⟨by decide, by decide, by decide⟩

/-- Claim C4 (amended): authenticated or not, successful or not, an
update-result report never modifies the `update_logs` table (nor the
`versions` table): the rows keep their prior status, so the most recent
non-terminal row for `(client, to_version)` stays `pending` and terminal rows
are trivially never rewritten.  Only the `clients` table is updated. -/
theorem C4_amended_logs_untouched (db : Db) (now : Nat) (apiKey : Option String)
    (req : UpdateResultRequest) :
    (report_update_result db now apiKey req).1.update_logs = db.update_logs ∧
    (report_update_result db now apiKey req).1.versions = db.versions := by
  cases apiKey with
  | none => exact ⟨rfl, rfl⟩
  | some key =>
    cases hc : get_client_by_api_key db key with
    | none => simp [report_update_result, hc]
    | some client =>
      cases hs : req.success <;> simp [report_update_result, hc, hs]

/-- Claim C9: for every authenticated update-result report with
`success=true` and any version string `V` whatsoever — here even under the
explicit assumptions that no Version row named `V` exists and that `V` is not
the client's in-flight target version — the server still sets the client's
`current_version` to `V`, clears `target_version` and reports success: no
validation of `V` is performed. -/
theorem C9_unvalidated_success_version (db : Db) (now : Nat) (key : String)
    (client : Client) (req : UpdateResultRequest)
    (hc : get_client_by_api_key db key = some client)
    (hs : req.success = true)
    (hnoVersion : get_version db req.version = none)
    (hnoTarget : client.target_version ≠ some req.version) :
    (report_update_result db now (some key) req).1.clients =
      db.clients.map (fun c =>
        if c.id = client.id then
          { c with current_version := some req.version, target_version := none,
                   status := "online", updated_at := now }
        else c) ∧
    ∃ resp, (report_update_result db now (some key) req).2 = .ok resp := by
  refine ⟨?_, ?_⟩ <;> simp [report_update_result, hc, hs]

/-! ## Claims C2 and C8: the check-in endpoint -/

/-- Claim C2: for every check-in carrying a valid token: when the client's
target version is unset, or set and equal to the reported current version,
the response has action `none`; when it is set and different from the
reported current version (or no current version is reported) and — per data
invariant 3 of the spec — the Version row for it exists, the response has
action `update` with that target version, an `artifact_url` under
`/api/artifacts/` at which `download_artifact` on the resulting database
serves that Version's artifact bytes, and the row's stored checksum; and a
new UpdateLog row in status `pending` with `from_version` = reported current
version and `to_version` = target is appended. -/
theorem C2_checkin_directive (db : Db) (now logId : Nat) (key : String)
    (client : Client) (req : CheckinRequest)
    (hc : get_client_by_api_key db key = some client) :
    (client.target_version = none →
      ∃ resp, (checkin db now logId (some key) req).2 = .ok resp ∧
        resp.action = "none") ∧
    (∀ t, client.target_version = some t → req.current_version = some t →
      ∃ resp, (checkin db now logId (some key) req).2 = .ok resp ∧
        resp.action = "none") ∧
    (∀ t ver, client.target_version = some t → req.current_version ≠ some t →
      get_version db t = some ver →
      (checkin db now logId (some key) req).1.update_logs =
        db.update_logs ++
          [{ id := logId, client_id := client.id, from_version := req.current_version,
             to_version := t, status := "pending", error_message := none,
             started_at := now, completed_at := none }] ∧
      ∃ resp, (checkin db now logId (some key) req).2 = .ok resp ∧
        resp.action = "update" ∧
        resp.target_version = some t ∧
        resp.artifact_url = some ("/api/artifacts/" ++ t) ∧
        resp.checksum = some ver.checksum ∧
        ∀ store bytes, assocGet store ver.artifact_path = some bytes →
          download_artifact (checkin db now logId (some key) req).1 store t =
            .ok { body := bytes, filename := ver.artifact_path,
                  content_length := ver.artifact_size,
                  checksum_header := ver.checksum }) := by
  refine ⟨?_, ?_, ?_⟩
  · intro ht
    simp [checkin, hc, ht]
  · intro t ht hcur
    simp [checkin, hc, ht, hcur]
  · intro t ver ht hne hver
    have hvv : ver.version = t := get_version_matches hver
    have hget : get_version (checkin db now logId (some key) req).1 t = some ver := by
      unfold get_version
      rw [checkin_versions_eq db now logId (some key) req]
      exact hver
    cases hcv : req.current_version with
    | none =>
      constructor
      · simp [checkin, hc, ht, hcv, hver, update_client_checkin, create_update_log]
      · refine ⟨⟨"update", some t, some ("/api/artifacts/" ++ ver.version),
            some ver.checksum,
            if client.config.service_dir.isSome || client.config.restart_command.isSome
              then some client.config else none⟩, ?_, rfl, rfl, ?_, rfl, ?_⟩
        · simp [checkin, hc, ht, hcv, hver]
        · simp [hvv]
        · intro store bytes hbytes
          simp [download_artifact, hget, hbytes]
    | some c =>
      have hcne : (t != c) = true := by
        simp only [bne_iff_ne, ne_eq]
        intro hEq
        exact hne (by rw [hcv, hEq])
      constructor
      · simp [checkin, hc, ht, hcv, hcne, hver, update_client_checkin, create_update_log]
      · refine ⟨⟨"update", some t, some ("/api/artifacts/" ++ ver.version),
            some ver.checksum,
            if client.config.service_dir.isSome || client.config.restart_command.isSome
              then some client.config else none⟩, ?_, rfl, rfl, ?_, rfl, ?_⟩
        · simp [checkin, hc, ht, hcv, hcne, hver]
        · simp [hvv]
        · intro store bytes hbytes
          simp [download_artifact, hget, hbytes]

/-- Claim C8 (counterexample): a client whose stored configuration has
exactly one non-empty recognized field, `health_check_url`, checks in with a
valid token; the claim says the response must include the config object, but
the handler only tests `service_dir` and `restart_command`, so the response
carries no config. -/
theorem C8_config_field_missed :
    (checkin db8w 5 1 (some "k")
        { current_version := none, status := "online" }).2 =
      .ok { action := "none", config := none } ∧
    client8w.config.health_check_url = some "http://x" := by
  exact ⟨by decide, by decide⟩

/-- Claim C8 (amended): for every check-in with a valid token (action `none`
or `update`), the response includes the stored config object if and only if
`service_dir` or `restart_command` is set (`Option::is_some`, regardless of
emptiness); the other five recognized fields are ignored by this decision. -/
theorem C8_amended_config_condition (db : Db) (now logId : Nat) (key : String)
    (client : Client) (req : CheckinRequest)
    (hc : get_client_by_api_key db key = some client) :
    ∃ resp, (checkin db now logId (some key) req).2 = .ok resp ∧
      resp.config = (if client.config.service_dir.isSome || client.config.restart_command.isSome
        then some client.config else none) := by
  simp only [checkin, hc]
  split
  · split
    · exact ⟨_, rfl, rfl⟩
    · exact ⟨_, rfl, rfl⟩
  · exact ⟨_, rfl, rfl⟩

/-! ## Claim C7: duplicate version upload -/

/-- Claim C7: a version upload whose (valid) semver string equals an
already-stored Version is answered with 409 conflict, and both the database
(hence the existing Version row) and the artifact store on disk are returned
unchanged. -/
theorem C7_duplicate_conflict (semverOk : String → Bool) (sha256 : String → String)
    (db : Db) (store : ArtifactStore) (newId now : Nat) (form : UploadForm)
    (v data : String) (row : Version)
    (hform : form.version = some v)
    (hdata : form.artifact = some data)
    (hsem : semverOk v = true)
    (hrow : get_version db v = some row) :
    upload_version semverOk sha256 db store newId now form =
      ((db, store), .error (409, "Version " ++ v ++ " already exists")) := by
  simp only [upload_version, hform, hdata, hsem, hrow, if_true, Option.isSome_some]

/-! ## Agent-side helper lemmas -/

theorem backup_name_ne_empty (s t : String) : ("backup_" ++ s ++ "_" ++ t) ≠ "" := by
  intro h
  have h2 := congrArg String.length h
  simp only [String.length_append] at h2
  have h3 : "backup_".length = 7 := rfl
  have h4 : "".length = 0 := rfl
  omega

theorem assocGet_assocWrite_self {α : Type} (d : List (String × α)) (key : String) (v : α) :
    assocGet (assocWrite d key v) key = some v := by
  induction d with
  | nil => simp [assocWrite, assocGet]
  | cons p rest ih =>
    by_cases hp : p.1 = key
    · simp [assocWrite, hp, assocGet]
    · simp [assocWrite, hp, assocGet, ih]

theorem assocGet_assocWrite_ne {α : Type} (d : List (String × α)) (key : String) (v : α)
    (k : String) (h : k ≠ key) :
    assocGet (assocWrite d key v) k = assocGet d k := by
  induction d with
  | nil => simp [assocWrite, assocGet, Ne.symm h]
  | cons p rest ih =>
    by_cases hp : p.1 = key
    · simp [assocWrite, hp, assocGet, Ne.symm h]
    · simp [assocWrite, hp, assocGet, ih]

/-! ## Claim C6: checksum mismatch aborts before any effect -/

/-- Claim C6: when the SHA-256 of the downloaded artifact bytes differs from
the expected checksum, the transaction fails with the checksum error and the
returned on-disk state is exactly the input state — no backup was taken and
`service_dir`, the backup dir and `.dm-version` are untouched — and the
polling loop reports failure for the target version. -/
theorem C6_checksum_abort (cfg : AgentConfig) (env : TxEnv)
    (target chk data : String) (st : AgentState)
    (hdl : env.downloadResult = some data)
    (hck : env.sha256 data ≠ chk) :
    perform_update cfg env target chk st = (st, some .checksumFailed) ∧
    poll_report target (perform_update cfg env target chk st).2 = (target, false) := by
  have hvc : verify_checksum env data chk = false := by
    simp [verify_checksum, hck]
  constructor
  · simp [perform_update, hdl, hvc]
  · simp [perform_update, hdl, hvc, poll_report]

/-- Witness for claim C6 at the `env6w` environment. -/
theorem C6_checksum_abort_witness :
    env6w.downloadResult = some "D" ∧
    env6w.sha256 "D" ≠ "H" ∧
    perform_update { } env6w "2.0.0" "H" st1w = (st1w, some .checksumFailed) := by
  refine ⟨rfl, by decide, ?_⟩
  exact (C6_checksum_abort { } env6w "2.0.0" "H" "D" st1w rfl (by decide)).1

/-! ## Claim C10: absent service dir means no backup and no rollback -/

/-- Claim C10: when `service_dir` does not exist at transaction start, the
backup stage succeeds with the empty backup marker and records no snapshot;
on any later stage failure (install, restart or health check) no rollback is
attempted: the transaction ends in the error of the failed stage with
`service_dir` left exactly as that stage produced it, and the failure is
reported. -/
theorem C10_no_backup_no_rollback (cfg : AgentConfig) (env : TxEnv)
    (target chk data : String) (bks : List (String × FsDir))
    (hdl : env.downloadResult = some data)
    (hck : env.sha256 data = chk) :
    backup_current env ((read_current_version ⟨none, bks⟩).getD "unknown") ⟨none, bks⟩ =
      (⟨none, bks⟩, .ok "") ∧
    (env.extract = .unpackErr →
      perform_update cfg env target chk ⟨none, bks⟩ = (⟨none, bks⟩, some .extractFailed)) ∧
    (∀ torn, env.extract = .installErr torn →
      perform_update cfg env target chk ⟨none, bks⟩ = (⟨torn, bks⟩, some .installFailed)) ∧
    (∀ c, env.extract = .extracted c → env.writeTargetOk = true → env.restartOk = false →
      perform_update cfg env target chk ⟨none, bks⟩ =
        (⟨some (assocWrite c VERSION_FILE target), bks⟩, some .restartFailed)) ∧
    (∀ c, env.extract = .extracted c → env.writeTargetOk = true → env.restartOk = true →
      health_check cfg env = false →
      perform_update cfg env target chk ⟨none, bks⟩ =
        (⟨some (assocWrite c VERSION_FILE target), bks⟩, some .healthFailed)) ∧
    (∀ e, (perform_update cfg env target chk ⟨none, bks⟩).2 = some e →
      poll_report target (perform_update cfg env target chk ⟨none, bks⟩).2 = (target, false)) := by
  have hvc : verify_checksum env data chk = true := by
    simp [verify_checksum, hck]
  refine ⟨rfl, ?_, ?_, ?_, ?_, ?_⟩
  · intro hx
    simp [perform_update, hdl, hvc, backup_current, extract_and_install, hx]
  · intro torn hx
    simp [perform_update, hdl, hvc, backup_current, extract_and_install, hx]
  · intro c hx hw hr
    simp [perform_update, hdl, hvc, backup_current, extract_and_install, hx, hw, hr,
      write_version_attempt, write_current_version]
  · intro c hx hw hr hh
    simp [perform_update, hdl, hvc, backup_current, extract_and_install, hx, hw, hr, hh,
      write_version_attempt, write_current_version]
  · intro e he
    simp [poll_report, he]

/-- Witness for claim C10: restart failure with no pre-existing service dir
leaves the freshly installed tree in place and no rollback happens. -/
theorem C10_no_backup_no_rollback_witness :
    env1w.downloadResult = some "D" ∧
    env1w.sha256 "D" = "H" ∧
    env1w.extract = .extracted [("app", "y")] ∧
    env1w.writeTargetOk = true ∧
    env1w.restartOk = false ∧
    perform_update { } env1w "2.0.0" "H" ⟨none, []⟩ =
      (⟨some (assocWrite [("app", "y")] VERSION_FILE "2.0.0"), []⟩,
       some .restartFailed) := by
  refine ⟨rfl, rfl, rfl, rfl, rfl, ?_⟩
  exact (C10_no_backup_no_rollback { } env1w "2.0.0" "H" "D" [] rfl rfl).2.2.2.1
    [("app", "y")] rfl rfl rfl

/-! ## Claim C1: rollback and byte-for-byte restoration -/

/-- Claim C1 (counterexample): `service_dir` exists with one file and no
`.dm-version`; the restart stage fails and rollback (restore, re-run restart,
version rewrite) succeeds.  The claim says the post-transaction contents are
byte-for-byte the pre-transaction ones, but rollback creates a `.dm-version`
file with contents `"unknown"` that did not exist before. -/
theorem C1_rollback_not_byte_for_byte :
    assocGet [("app", "x")] VERSION_FILE = none ∧
    (perform_update { } env1w "2.0.0" "H" st1w).2 = some .restartFailed ∧
    (perform_update { } env1w "2.0.0" "H" st1w).1.service =
      some [("app", "x"), (".dm-version", "unknown")] ∧
    ¬ sameDir (perform_update { } env1w "2.0.0" "H" st1w).1.service st1w.service := by
  refine ⟨rfl, by decide, by decide, ?_⟩
  intro hsame
  rw [show (perform_update { } env1w "2.0.0" "H" st1w).1.service =
      some [("app", "x"), (".dm-version", "unknown")] from by decide] at hsame
  have h2 : sameFiles [("app", "x"), (".dm-version", "unknown")] [("app", "x")] := hsame
  exact absurd (h2 ".dm-version") (by decide)

/-- Claim C1 (amended): over an existing `service_dir` `d`, with download,
checksum and backup succeeding and every rollback operation succeeding:
(1) when the extract/install stage fails, rollback restores `service_dir`
byte for byte, `.dm-version` included; (2) when the restart or health-check
stage fails, rollback restores every file except `.dm-version`, which is
rewritten with the trimmed pre-transaction version string — the literal
`"unknown"` when no `.dm-version` existed before — so byte-for-byte equality
fails exactly when that rewrite differs from the original bytes; (3) a
version-file write failure triggers no rollback at all: the freshly installed
tree stays in place. -/
theorem C1_amended_rollback_effects (cfg : AgentConfig) (env : TxEnv)
    (d : FsDir) (bks : List (String × FsDir)) (data target chk : String)
    (hdl : env.downloadResult = some data)
    (hck : env.sha256 data = chk)
    (hbk : env.backupOk = true)
    (hrc : env.rollbackCopyOk = true)
    (hrr : env.rollbackRestartOk = true)
    (hrw : env.rollbackRewriteOk = true) :
    ((env.extract = .unpackErr ∨ (∃ torn, env.extract = .installErr torn)) →
      (perform_update cfg env target chk ⟨some d, bks⟩).1.service = some d ∧
      (perform_update cfg env target chk ⟨some d, bks⟩).2.isSome = true) ∧
    (∀ c, env.extract = .extracted c → env.writeTargetOk = true →
      (env.restartOk = false ∨ (env.restartOk = true ∧ health_check cfg env = false)) →
      (perform_update cfg env target chk ⟨some d, bks⟩).1.service =
        some (assocWrite d VERSION_FILE
          ((read_current_version ⟨some d, bks⟩).getD "unknown")) ∧
      (perform_update cfg env target chk ⟨some d, bks⟩).2.isSome = true ∧
      (∀ k, k ≠ VERSION_FILE →
        assocGet (assocWrite d VERSION_FILE
          ((read_current_version ⟨some d, bks⟩).getD "unknown")) k = assocGet d k) ∧
      assocGet (assocWrite d VERSION_FILE
          ((read_current_version ⟨some d, bks⟩).getD "unknown")) VERSION_FILE =
        some ((read_current_version ⟨some d, bks⟩).getD "unknown")) ∧
    (∀ c, env.extract = .extracted c → env.writeTargetOk = false →
      (perform_update cfg env target chk ⟨some d, bks⟩).2 = some .writeVersionFailed ∧
      (perform_update cfg env target chk ⟨some d, bks⟩).1.service =
        (match env.writeTargetTorn with
         | some tc => some (assocWrite c VERSION_FILE tc)
         | none => some c)) := by
  have hvc : verify_checksum env data chk = true := by
    simp [verify_checksum, hck]
  refine ⟨?_, ?_, ?_⟩
  · rintro (hx | ⟨torn, hx⟩) <;>
      simp [perform_update, hdl, hvc, backup_current, hbk, extract_and_install, hx,
        rollback, hrc, hrr, backup_name_ne_empty, assocGet]
  · intro c hx hw hfail
    have key : (perform_update cfg env target chk ⟨some d, bks⟩).1.service =
        some (assocWrite d VERSION_FILE
          ((read_current_version ⟨some d, bks⟩).getD "unknown")) ∧
        (perform_update cfg env target chk ⟨some d, bks⟩).2.isSome = true := by
      rcases hfail with hr | ⟨hr, hh⟩
      · constructor <;>
          simp [perform_update, hdl, hvc, backup_current, hbk, extract_and_install, hx,
            write_version_attempt, hw, hr, rollback, hrc, hrr, hrw,
            backup_name_ne_empty, assocGet, write_current_version]
      · constructor <;>
          simp [perform_update, hdl, hvc, backup_current, hbk, extract_and_install, hx,
            write_version_attempt, hw, hr, hh, rollback, hrc, hrr, hrw,
            backup_name_ne_empty, assocGet, write_current_version]
    exact ⟨key.1, key.2, fun k hk => assocGet_assocWrite_ne d VERSION_FILE _ k hk,
      assocGet_assocWrite_self d VERSION_FILE _⟩
  · intro c hx hw
    cases ht : env.writeTargetTorn <;>
      simp [perform_update, hdl, hvc, backup_current, hbk, extract_and_install, hx,
        write_version_attempt, hw, ht, backup_name_ne_empty, assocGet,
        write_current_version]

/-- Witness for claim C1 (amended): restart failure over the service dir
`d1v` whose `.dm-version` holds `"1.0.0\n"`; after rollback the file holds
the trimmed string `"1.0.0"`. -/
theorem C1_amended_rollback_effects_witness :
    env1w.downloadResult = some "D" ∧ env1w.sha256 "D" = "H" ∧
    env1w.backupOk = true ∧ env1w.rollbackCopyOk = true ∧
    env1w.rollbackRestartOk = true ∧ env1w.rollbackRewriteOk = true ∧
    env1w.extract = .extracted [("app", "y")] ∧ env1w.writeTargetOk = true ∧
    env1w.restartOk = false ∧
    (perform_update { } env1w "2.0.0" "H" ⟨some d1v, []⟩).1.service =
      some [("app", "x"), (".dm-version", "1.0.0")] := by
  refine ⟨rfl, rfl, rfl, rfl, rfl, rfl, rfl, rfl, rfl, ?_⟩
  have h := ((C1_amended_rollback_effects { } env1w d1v [] "D" "2.0.0" "H"
    rfl rfl rfl rfl rfl rfl).2.1 [("app", "y")] rfl rfl (Or.inl rfl)).1
  exact h.trans (by decide)

/-! ## Claim C5: archive path safety -/

/-- Claim C5 (counterexample): an archive holding the entry `../evil` is not
rejected with an error by the extract-and-install step — the `tar` crate's
`unpack_in` silently skips the entry — and `service_dir` is not left
unchanged: it is replaced with the sanitized extracted content. -/
theorem C5_path_escape_not_rejected :
    (extract_and_install_archive entries5w st5w).2 = none ∧
    sanitize_entry_path "../evil" = none ∧
    (extract_and_install_archive entries5w st5w).1.service = some [("bin", "B")] ∧
    (extract_and_install_archive entries5w st5w).1.service ≠ st5w.service := by
  exact ⟨rfl, by decide, by decide, by decide⟩

/-- Claim C5 (amended): the extract step never rejects an archive because of
its entry paths; instead, per the `tar` crate's `unpack_in`, every entry
whose path contains a `..` component is silently skipped, and every file that
is written has a destination path made only of plain components — no `..`,
no empty (absolute/root) component and no `.` — so extraction stays inside
the temp root; installation then proceeds, replacing `service_dir` with the
sanitized content. -/
theorem C5_amended_sanitized_skip (entries : List TarEntry) (st : AgentState) :
    (extract_and_install_archive entries st).2 = none ∧
    (∀ e, e ∈ entries → (pathSegs e.path).contains ".." = true →
      sanitize_entry_path e.path = none) ∧
    (∀ pr, pr ∈ tar_unpack entries →
      pr.1.all (fun s => s != ".." && s != "" && s != ".") = true) := by
  refine ⟨rfl, ?_, ?_⟩
  · intro e he hdots
    have h1 : ".." ∈ pathSegs e.path := List.elem_iff.mp hdots
    have h2 : ".." ∈ (pathSegs e.path).filter (fun s => s != "" && s != ".") :=
      List.mem_filter.mpr ⟨h1, by decide⟩
    simp only [sanitize_entry_path]
    rw [if_pos (List.elem_iff.mpr h2)]
  · intro pr hpr
    obtain ⟨e, _, hmap⟩ := List.mem_filterMap.mp hpr
    obtain ⟨segs, hs, hpair⟩ := Option.map_eq_some'.mp hmap
    simp only [sanitize_entry_path] at hs
    cases hcc : ((pathSegs e.path).filter (fun s => s != "" && s != ".")).contains ".." with
    | true => rw [hcc] at hs; simp at hs
    | false =>
      rw [hcc] at hs
      simp only [Bool.false_eq_true, if_false, Option.some.injEq] at hs
      have hpr1 : pr.1 = segs := by rw [← hpair]
      apply List.all_eq_true.mpr
      intro s hsmem
      rw [hpr1, ← hs] at hsmem
      have hp2 := (List.mem_filter.mp hsmem).2
      have hne : s ≠ ".." := by
        intro hEq
        have hc2 : (List.filter (fun s => s != "" && s != ".")
            (pathSegs e.path)).contains ".." = true :=
          List.elem_iff.mpr (hEq ▸ hsmem)
        rw [hcc] at hc2
        exact Bool.noConfusion hc2
      simp only [Bool.and_eq_true, bne_iff_ne, ne_eq] at hp2 ⊢
      exact ⟨⟨hne, hp2.1⟩, hp2.2⟩

/-- Witness for claim C5 (amended) at the concrete archive `entries5w`: the
`../evil` entry is skipped and the surviving destination path is clean. -/
theorem C5_amended_sanitized_skip_witness :
    (⟨"../evil", "E"⟩ : TarEntry) ∈ entries5w ∧
    (pathSegs "../evil").contains ".." = true ∧
    sanitize_entry_path "../evil" = none ∧
    (["app", "bin"], "B") ∈ tar_unpack entries5w ∧
    (["app", "bin"].all (fun s => s != ".." && s != "" && s != ".")) = true := by
  refine ⟨by decide, by decide, ?_, by decide, ?_⟩
  · exact (C5_amended_sanitized_skip entries5w st5w).2.1 ⟨"../evil", "E"⟩
      (by decide) (by decide)
  · exact (C5_amended_sanitized_skip entries5w st5w).2.2 (["app", "bin"], "B")
      (by decide)

/-! ## Witnesses for the server-side claims -/

/-- Witness for claim C2: at `db2w` the valid-token and version-exists
hypotheses hold, and the update branch produces a pending log row. -/
theorem C2_checkin_directive_witness :
    get_client_by_api_key db2w "k" = some client2w ∧
    get_version db2w "2.0.0" = some ver2w ∧
    (checkin db2w 5 1 (some "k") req2w).1.update_logs =
      db2w.update_logs ++ [⟨1, 0, some "1.0.0", "2.0.0", "pending", none, 5, none⟩] := by
  refine ⟨by decide, by decide, ?_⟩
  obtain ⟨-, -, h⟩ := C2_checkin_directive db2w 5 1 "k" client2w req2w (by decide)
  exact (h "2.0.0" ver2w (by decide) (by decide) (by decide)).1

/-- Witness for claim C3 at a concrete one-client database. -/
theorem C3_mark_success_atomic_witness :
    get_client_by_api_key db3w "k" = some client3w ∧
    ((⟨"2.0.0", true, none⟩ : UpdateResultRequest).success = true) ∧
    report_update_result db3w 9 (some "k") ⟨"2.0.0", true, none⟩ =
      (⟨[⟨0, "c", "k", some "2.0.0", none, none, "online", 0, 9, {}⟩], [], []⟩,
       .ok ⟨"Update success recorded", "2.0.0", none⟩) := by
  refine ⟨by decide, rfl, ?_⟩
  exact (C3_mark_success_atomic db3w 9 "k" client3w ⟨"2.0.0", true, none⟩
    (by decide) rfl).trans (by decide)

/-- Witness for claim C9: the reported version `bogus` names no Version row
and is not the client's target, yet it is recorded. -/
theorem C9_unvalidated_success_version_witness :
    get_client_by_api_key db9w "k" = some client9w ∧
    get_version db9w "bogus" = none ∧
    client9w.target_version ≠ some "bogus" ∧
    (report_update_result db9w 9 (some "k") ⟨"bogus", true, none⟩).1.clients =
      [⟨0, "c", "k", some "bogus", none, none, "online", 0, 9, {}⟩] := by
  refine ⟨by decide, by decide, by decide, ?_⟩
  exact ((C9_unvalidated_success_version db9w 9 "k" client9w ⟨"bogus", true, none⟩
    (by decide) rfl (by decide) (by decide)).1).trans (by decide)

/-- Witness for claim C7: re-uploading `1.0.0` is answered 409 and the
database and store are unchanged. -/
theorem C7_duplicate_conflict_witness :
    (fun v => v == "1.0.0") "1.0.0" = true ∧
    get_version db7w "1.0.0" = some row7w ∧
    upload_version (fun v => v == "1.0.0") (fun _ => "BB") db7w
        [("1.0.0.tar.gz", "abc")] 9 9 ⟨some "1.0.0", some "xyz", none, none⟩ =
      ((db7w, [("1.0.0.tar.gz", "abc")]),
       .error (409, "Version " ++ "1.0.0" ++ " already exists")) := by
  refine ⟨rfl, by decide, ?_⟩
  exact C7_duplicate_conflict (fun v => v == "1.0.0") (fun _ => "BB") db7w
    [("1.0.0.tar.gz", "abc")] 9 9 ⟨some "1.0.0", some "xyz", none, none⟩
    "1.0.0" "xyz" row7w rfl rfl rfl (by decide)

/-- Witness for claim C8 (amended) at the `db8w` client. -/
theorem C8_amended_config_condition_witness :
    get_client_by_api_key db8w "k" = some client8w ∧
    ∃ resp, (checkin db8w 5 1 (some "k") ⟨none, "online"⟩).2 = .ok resp ∧
      resp.config = (if client8w.config.service_dir.isSome ||
          client8w.config.restart_command.isSome
        then some client8w.config else none) := by
  exact ⟨by decide,
    C8_amended_config_condition db8w 5 1 "k" client8w ⟨none, "online"⟩ (by decide)⟩

end SamDm
